import Mathlib

/-!
Verification of the Aviation Crew Communication API core
(authentication, lockout, token verification, encrypted resource access).

Shallow embedding conventions:
* All timestamps (JavaScript `Date` values and ISO date strings) are modelled
  as `Millis`, milliseconds since the epoch, on one uniform timeline.
* The in-memory arrays (`users`, `messages`, `documents`) are Lean lists; a
  JavaScript in-place mutation of a found record followed by
  `updateUser` / `updateMessage` / `updateDocument` (which merge by `id`) is
  modelled as replacing the record in the list.
* bcrypt and AES-256-GCM are modelled by their documented contracts as
  idealized primitives (collision-free hash, perfect authenticated cipher);
  see the doc comments at each definition.
-/

namespace AviationCrew

/-- Milliseconds since the Unix epoch (JavaScript `Date.now()` timeline). -/
abbrev Millis := Nat

/-! ### Idealized bcrypt (utils use `bcrypt.hash` / `bcrypt.compare`) -/

/-- Idealized bcrypt digest.  A real bcrypt hash is a one-way, salted,
collision-free digest of its password; the idealization records the inputs so
that `bcryptCompare` succeeds exactly when the compared password equals the
password the hash was derived from (the documented contract of
`bcrypt.compare`). -/
structure BcryptHash where
  cost : Nat
  salt : Nat
  preimage : String
deriving DecidableEq, Repr

/-- `bcrypt.hash(password, saltRounds)`; the fresh random salt is passed
explicitly. -/
def bcryptHash (cost salt : Nat) (password : String) : BcryptHash :=
  { cost := cost, salt := salt, preimage := password }

/-- `bcrypt.compare(password, hash)`: true iff `hash` was derived from
`password`. -/
def bcryptCompare (password : String) (h : BcryptHash) : Bool :=
  h.preimage == password

/-! ### Users data model (`data/users.js`) -/

/-- A crew member record, after `data/users.js` seed records and the record
built by `POST /auth/register`. -/
structure User where
  id : String
  employeeId : String
  password : BcryptHash
  name : String
  role : String
  department : String
  clearanceLevel : Nat
  airline : String
  isActive : Bool
  lastLoginAt : Option Millis
  failedLoginAttempts : Nat
  accountLockedUntil : Option Millis
  updatedAt : Millis
deriving DecidableEq, Repr

/-- `findUserByEmployeeId` from `data/users.js`. -/
def findUserByEmployeeId (users : List User) (employeeId : String) : Option User :=
  users.find? (fun u => u.employeeId == employeeId)

/-- The net effect on the store of mutating a found user record in place (the
route handlers mutate the object held by the array — the first match of the
`find` — and then call `updateUser`, which merges the same fields back at
the first matching index). -/
def storeUser (users : List User) (u : User) : List User :=
  match users with
  | [] => []
  | x :: rest => if x.employeeId == u.employeeId then u :: rest else x :: storeUser rest u

/-! ### Login (`POST /auth/login` in the auth routes) -/

/-- Outcome of `POST /auth/login`, by error code. -/
inductive LoginResult where
  | invalidCredentials
  | accountLocked (unlockTime : Millis)
  | accountDeactivated
  | success
deriving DecidableEq, Repr

/-- The handler's lock test: `user.accountLockedUntil && new Date() < new
Date(user.accountLockedUntil)`. -/
def isLockedAt (user : User) (now : Millis) : Bool :=
  match user.accountLockedUntil with
  | some t => decide (now < t)
  | none => false

/-- The hard-coded lock duration: 30 minutes in milliseconds. -/
def lockDurationMs : Nat := 30 * 60 * 1000

/-- `POST /auth/login`: find the user, reject while locked, reject inactive
accounts, compare the password; on mismatch increment
`failedLoginAttempts` and set `accountLockedUntil = now + 30min` once the
count reaches 5; on success reset the counter and the lock and stamp
`lastLoginAt`. -/
def login (users : List User) (now : Millis) (employeeId password : String) :
    LoginResult × List User :=
  match findUserByEmployeeId users employeeId with
  | none => (.invalidCredentials, users)
  | some user =>
    if isLockedAt user now then
      (.accountLocked (user.accountLockedUntil.getD 0), users)
    else if !user.isActive then
      (.accountDeactivated, users)
    else if !bcryptCompare password user.password then
      let attempts := user.failedLoginAttempts + 1
      let lockedUntil :=
        if attempts ≥ 5 then some (now + lockDurationMs) else user.accountLockedUntil
      let user' := { user with
        failedLoginAttempts := attempts
        accountLockedUntil := lockedUntil
        updatedAt := now }
      (.invalidCredentials, storeUser users user')
    else
      let user' := { user with
        failedLoginAttempts := 0
        accountLockedUntil := none
        lastLoginAt := some now
        updatedAt := now }
      (.success, storeUser users user')

/-- Outcome of `PUT /auth/password`, by error code. -/
inductive PasswordChangeResult where
  | userNotFound
  | invalidCurrentPassword
  | success
deriving DecidableEq, Repr

/-- `PUT /auth/password`: verify the current password against the stored
hash, then replace the hash with a fresh bcrypt hash of the new password and
stamp `updatedAt`.  (The fresh salt is passed explicitly.)  The handler does
not touch `failedLoginAttempts` or `accountLockedUntil`. -/
def changePassword (users : List User) (now : Millis)
    (requesterId currentPassword newPassword : String) (salt : Nat) :
    PasswordChangeResult × List User :=
  match findUserByEmployeeId users requesterId with
  | none => (.userNotFound, users)
  | some user =>
    if !bcryptCompare currentPassword user.password then
      (.invalidCurrentPassword, users)
    else
      let user' := { user with
        password := bcryptHash 12 salt newPassword
        updatedAt := now }
      (.success, storeUser users user')

/-- `resetUserPassword` from `data/users.js` (admin function): re-hash the
password and clear `failedLoginAttempts` and `accountLockedUntil`. -/
def resetUserPassword (users : List User) (now : Millis)
    (employeeId newPassword : String) (salt : Nat) : Bool × List User :=
  match findUserByEmployeeId users employeeId with
  | none => (false, users)
  | some user =>
    let user' := { user with
      password := bcryptHash 12 salt newPassword
      updatedAt := now
      failedLoginAttempts := 0
      accountLockedUntil := none }
    (true, storeUser users user')

/-! ### JWT and blacklist (`utils/jwt.js`, `middleware/auth.js`)

A JWT is modelled structurally: a claims payload plus a signature.  The
signature produced by `jwt.sign` with a secret is idealized as an unforgeable
MAC: it records the secret and the payload, and `jwt.verify` accepts exactly
when the token's signature was produced over the token's own payload with the
verifier's secret (the documented contract of HS256 signing). -/

/-- Access-token claims as produced by `generateTokens` in `utils/jwt.js`
(identity payload plus the registered claims added by `jwt.sign`). -/
structure AccessPayload where
  employeeId : String
  name : String
  role : String
  department : String
  clearanceLevel : Nat
  airline : String
  exp : Millis
  iss : String
  aud : String
deriving DecidableEq, Repr

/-- Idealized HS256 signature: determined by, and binding, the signing secret
and the signed payload. -/
structure Sig where
  secret : String
  payload : AccessPayload
deriving DecidableEq, Repr

/-- A signed access token. -/
structure Token where
  payload : AccessPayload
  sig : Sig
deriving DecidableEq, Repr

/-- Error kinds surfaced by the `jsonwebtoken` library. -/
inductive JwtError where
  | invalidSignature
  | expired
  | invalidIssuer
  | invalidAudience
deriving DecidableEq, Repr

/-- `jwt.verify(token, secret, options)`: check the signature, then expiry,
then the issuer and audience options when supplied. -/
def jwtVerify (secret : String) (now : Millis) (token : Token)
    (issuer audience : Option String) : Except JwtError AccessPayload :=
  if token.sig ≠ { secret := secret, payload := token.payload } then
    .error .invalidSignature
  else if token.payload.exp ≤ now then
    .error .expired
  else if issuer.any (fun i => i != token.payload.iss) then
    .error .invalidIssuer
  else if audience.any (fun a => a != token.payload.aud) then
    .error .invalidAudience
  else
    .ok token.payload

/-- `verifyAccessToken` from `utils/jwt.js`: `jwt.verify` against
`JWT_SECRET` with the fixed issuer and audience.  The function takes no
blacklist input and performs no blacklist lookup. -/
def verifyAccessToken (secret : String) (now : Millis) (token : Token) :
    Except JwtError AccessPayload :=
  jwtVerify secret now token (some "aviation-crew-api") (some "aviation-crew")

/-- The process-wide token blacklist `global.tokenBlacklist`: a map from
token to blacklist-entry expiry. -/
abbrev Blacklist := List (Token × Millis)

/-- `blacklistToken(token, expiresAt)` from `utils/jwt.js`: record the token
until the supplied expiry (the source falls back to the token's own expiry
or now + 24h; the resolved expiry is passed here). -/
def blacklistToken (bl : Blacklist) (token : Token) (expiry : Millis) : Blacklist :=
  bl ++ [(token, expiry)]

/-- `isTokenBlacklisted` from `utils/jwt.js`: a token is blacklisted iff it
has an entry whose expiry has not passed (`new Date() > expiry` removes the
entry and reports false). -/
def isTokenBlacklisted (bl : Blacklist) (now : Millis) (token : Token) : Bool :=
  match bl.find? (fun e => e.1 == token) with
  | none => false
  | some e => decide (now ≤ e.2)

/-- The identity attached to `req.user` by the authentication middleware. -/
structure ReqUser where
  employeeId : String
  name : String
  role : String
  department : String
  clearanceLevel : Nat
  airline : String
deriving DecidableEq, Repr

/-- Build the `req.user` object from a user record (password excluded). -/
def User.toReqUser (u : User) : ReqUser :=
  { employeeId := u.employeeId, name := u.name, role := u.role,
    department := u.department, clearanceLevel := u.clearanceLevel,
    airline := u.airline }

/-- Outcome of the `authenticateToken` middleware, by error code. -/
inductive AuthResult where
  | noToken
  | tokenExpired
  | invalidToken
  | userNotFound
  | accountDeactivated
  | ok (user : ReqUser)
deriving DecidableEq, Repr

/-- `authenticateToken` from `middleware/auth.js`: extract the bearer token
(modelled as the already-parsed `Option Token`), run
`jwt.verify(token, JWT_SECRET)` (no issuer or audience options here), resolve
the user by `employeeId`, and reject missing or deactivated accounts.  It
performs no blacklist lookup. -/
def authenticateToken (secret : String) (users : List User) (now : Millis)
    (token? : Option Token) : AuthResult :=
  match token? with
  | none => .noToken
  | some token =>
    match jwtVerify secret now token none none with
    | .error .expired => .tokenExpired
    | .error _ => .invalidToken
    | .ok decoded =>
      match findUserByEmployeeId users decoded.employeeId with
      | none => .userNotFound
      | some user =>
        if !user.isActive then .accountDeactivated
        else .ok user.toReqUser

/-! ### Encryption utilities (`utils/encryption.js`)

The file documents itself as using AES-256-GCM with purpose-specific
associated data.  Two layers are modelled:

* the *runtime* layer: `utils/encryption.js` calls
  `crypto.createCipherGCM` / `crypto.createDecipherGCM`, functions that do
  not exist in the Node.js `crypto` module (the actual API is
  `crypto.createCipheriv` / `crypto.createDecipheriv`); every call therefore
  throws a TypeError that each wrapper catches and re-throws with its own
  message;
* the *intended* layer: the AES-256-GCM authenticated cipher the file
  documents, idealized as a perfect AEAD — the keystream is an arbitrary
  deterministic function of key and IV, encryption is XOR with the
  keystream, and the 128-bit authentication tag is modelled as binding
  exactly its key, IV, associated data and ciphertext (two tags agree iff
  all four inputs agree). -/

/-- Byte sequences; strings are modelled by their UTF-8 byte sequences. -/
abbrev Bytes := List Nat

/-- Names of the functions exported by the Node.js `crypto` module that this
repository could call (from the Node.js crypto documentation; the module has
`createCipheriv` and the legacy `createCipher`, but no `createCipherGCM`). -/
def nodeCryptoMembers : List String :=
  ["createCipheriv", "createDecipheriv", "createCipher", "createDecipher",
   "createHash", "createHmac", "createSign", "createVerify",
   "pbkdf2", "pbkdf2Sync", "randomBytes", "randomUUID", "randomInt",
   "timingSafeEqual", "scrypt", "scryptSync", "generateKeyPairSync",
   "createDiffieHellman", "createECDH", "getCiphers", "getHashes"]

/-- A JavaScript call `crypto.member(...)`: calling a property that the
module does not export throws a TypeError naming the member. -/
def cryptoCall (member : String) : Except String Unit :=
  if nodeCryptoMembers.contains member then Except.ok ()
  else Except.error ("crypto." ++ member ++ " is not a function")

/-- Deterministic keystream byte `i` of the idealized cipher for a given key
and IV (any fixed function works: only determinism is used). -/
def keystream (key iv i : Nat) : Nat :=
  (key * 2654435761 + iv * 40503 + i * 97 + 131) % 256

/-- XOR a byte sequence with the keystream starting at index `i`; AES-GCM's
CTR-mode core, an involution for a fixed key and IV. -/
def xorStream (key iv : Nat) : Nat → Bytes → Bytes
  | _, [] => []
  | i, b :: rest => ((b % 256) ^^^ keystream key iv i) :: xorStream key iv (i + 1) rest

/-- Idealized 128-bit GCM authentication tag: a perfect MAC, determined by
and binding its key, IV, associated data and ciphertext. -/
structure GcmTag where
  key : Nat
  iv : Nat
  aad : String
  ciphertext : Bytes
deriving DecidableEq, Repr

/-- The combined payload `IV : ciphertext : tag` (hex string for messages,
concatenated buffer for files), modelled in parsed form. -/
structure EncPayload where
  iv : Nat
  ciphertext : Bytes
  tag : GcmTag
deriving DecidableEq, Repr

/-- AES-256-GCM encryption with associated data, idealized. -/
def gcmEncrypt (key iv : Nat) (aad : String) (plaintext : Bytes) : EncPayload :=
  let ct := xorStream key iv 0 plaintext
  { iv := iv, ciphertext := ct,
    tag := { key := key, iv := iv, aad := aad, ciphertext := ct } }

/-- AES-256-GCM decryption with associated data, idealized: verify the tag
against the key, the payload's IV, the caller's associated data and the
payload's ciphertext; fail closed on mismatch, never returning partial
plaintext. -/
def gcmDecrypt (key : Nat) (aad : String) (p : EncPayload) : Except String Bytes :=
  if p.tag = { key := key, iv := p.iv, aad := aad, ciphertext := p.ciphertext } then
    Except.ok (xorStream key p.iv 0 p.ciphertext)
  else
    Except.error "Unsupported state or unable to authenticate data"

/-- The associated-data purpose tag of `encryptMessage` / `decryptMessage`. -/
def aadMessage : String := "aviation-message"

/-- The associated-data purpose tag of `encryptFile` / `decryptFile`. -/
def aadDocument : String := "aviation-document"

/-- Result shape of `encryptMessage` / `encryptFile`:
an encrypted payload plus the fresh key, both returned to the caller. -/
structure EncryptResult where
  encryptedContent : EncPayload
  key : Nat
deriving DecidableEq, Repr

/-- `encryptMessage` at the intended layer: fresh key and IV (passed
explicitly), associated data `aviation-message`, returning the combined
payload and the key. -/
def encryptMessageIntended (key iv : Nat) (message : Bytes) : EncryptResult :=
  { encryptedContent := gcmEncrypt key iv aadMessage message, key := key }

/-- `decryptMessage` at the intended layer. -/
def decryptMessageIntended (p : EncPayload) (key : Nat) : Except String Bytes :=
  match gcmDecrypt key aadMessage p with
  | Except.ok pt => Except.ok pt
  | Except.error e => Except.error ("Message decryption failed: " ++ e)

/-- `encryptFile` at the intended layer: associated data
`aviation-document`. -/
def encryptFileIntended (key iv : Nat) (fileBuffer : Bytes) : EncryptResult :=
  { encryptedContent := gcmEncrypt key iv aadDocument fileBuffer, key := key }

/-- `decryptFile` at the intended layer. -/
def decryptFileIntended (p : EncPayload) (key : Nat) : Except String Bytes :=
  match gcmDecrypt key aadDocument p with
  | Except.ok pt => Except.ok pt
  | Except.error e => Except.error ("File decryption failed: " ++ e)

/-- `encryptMessage` as it actually executes: the body first reaches
`crypto.createCipherGCM(ALGORITHM, key, iv)`; when that member lookup fails
the thrown TypeError is caught and re-thrown as a message-encryption error;
were the member present, the function would produce the intended AES-GCM
result. -/
def encryptMessageRuntime (key iv : Nat) (message : Bytes) :
    Except String EncryptResult :=
  match cryptoCall "createCipherGCM" with
  | Except.ok _ => Except.ok (encryptMessageIntended key iv message)
  | Except.error e => Except.error ("Message encryption failed: " ++ e)

/-- `decryptMessage` as it actually executes (reaches
`crypto.createDecipherGCM` after parsing the combined format). -/
def decryptMessageRuntime (p : EncPayload) (key : Nat) : Except String Bytes :=
  match cryptoCall "createDecipherGCM" with
  | Except.ok _ => decryptMessageIntended p key
  | Except.error e => Except.error ("Message decryption failed: " ++ e)

/-- `encryptFile` as it actually executes. -/
def encryptFileRuntime (key iv : Nat) (fileBuffer : Bytes) :
    Except String EncryptResult :=
  match cryptoCall "createCipherGCM" with
  | Except.ok _ => Except.ok (encryptFileIntended key iv fileBuffer)
  | Except.error e => Except.error ("File encryption failed: " ++ e)

/-- `decryptFile` as it actually executes. -/
def decryptFileRuntime (p : EncPayload) (key : Nat) : Except String Bytes :=
  match cryptoCall "createDecipherGCM" with
  | Except.ok _ => decryptFileIntended p key
  | Except.error e => Except.error ("File decryption failed: " ++ e)

/-! ### Documents data model and routes (`data/documents.js`,
`routes/documents.js`)

Route handlers below call the cipher at its runtime layer
(`decryptFileRuntime`: the call always throws, see the encryption section);
pagination, sorting and the optional query filters of the listing route are
omitted — the listing is modelled up to the `userDocuments` list the route
paginates.
HTTP responses strip `encryptedContent` and `encryptionKey`; the models
return the full record and the stripping is noted where a claim depends on
it. -/

/-- One `accessLog` entry `(action, actor, timestamp)`. -/
structure AccessLogEntry where
  action : String
  employeeId : String
  timestamp : Millis
deriving DecidableEq, Repr

/-- A stored document record (`data/documents.js` seeds and the record built
by `POST /documents`). -/
structure Document where
  id : String
  title : String
  category : String
  accessLevel : Nat
  fileName : String
  encryptedContent : EncPayload
  encryptionKey : Nat
  uploadedBy : String
  status : String
  downloadCount : Nat
  expiresAt : Option Millis
  updatedAt : Millis
  accessLog : List AccessLogEntry
deriving DecidableEq, Repr

/-- `findDocumentById` from `data/documents.js`. -/
def findDocumentById (docs : List Document) (id : String) : Option Document :=
  docs.find? (fun d => d.id == id)

/-- Net effect on the store of mutating a found document in place and
calling `updateDocument` (which merges back at the first index matching by
`id`). -/
def storeDocument (docs : List Document) (d : Document) : List Document :=
  match docs with
  | [] => []
  | x :: rest => if x.id == d.id then d :: rest else x :: storeDocument rest d

/-- Document-route error kinds (`DOCUMENT_NOT_FOUND`, `ACCESS_DENIED` /
`DOWNLOAD_ACCESS_DENIED`, `DOCUMENT_EXPIRED`, `DECRYPTION_FAILED`,
`DELETE_ACCESS_DENIED`). -/
inductive DocError where
  | notFound
  | accessDenied
  | expired
  | decryptionFailed
  | deleteAccessDenied
deriving DecidableEq, Repr

/-- The expiry test of the detail and download routes:
`document.expiresAt && new Date() > new Date(document.expiresAt)`. -/
def docExpiredAt (doc : Document) (now : Millis) : Bool :=
  match doc.expiresAt with
  | some e => decide (now > e)
  | none => false

/-- `GET /documents` up to pagination: keep documents with
`accessLevel <= req.user.clearanceLevel` and `status === 'active'`, then
drop expired ones (`new Date() < new Date(doc.expiresAt)` keeps). -/
def listDocuments (docs : List Document) (user : ReqUser) (now : Millis) :
    List Document :=
  (docs.filter (fun d =>
    d.accessLevel ≤ user.clearanceLevel && d.status == "active")).filter
      (fun d => match d.expiresAt with
        | none => true
        | some e => decide (now < e))

/-- `GET /documents/:id`: not-found, then clearance, then expiry; on success
append a `viewed` access-log entry and return the document (the HTTP
response additionally strips `encryptedContent` and `encryptionKey`). -/
def getDocumentDetail (docs : List Document) (user : ReqUser) (now : Millis)
    (id : String) : Except DocError Document × List Document :=
  match findDocumentById docs id with
  | none => (.error .notFound, docs)
  | some doc =>
    if doc.accessLevel > user.clearanceLevel then
      (.error .accessDenied, docs)
    else if docExpiredAt doc now then
      (.error .expired, docs)
    else
      let doc' := { doc with
        accessLog := doc.accessLog ++
          [{ action := "viewed", employeeId := user.employeeId, timestamp := now }] }
      (.ok doc', storeDocument docs doc')

/-- `GET /documents/:id/download`: not-found, clearance, expiry, then
`decryptFile` as it actually executes (the call always throws, so the catch
reports `DECRYPTION_FAILED`); were decryption to return, the handler would
bump `downloadCount`, append a `downloaded` access-log entry and send the
decrypted bytes. -/
def downloadDocument (docs : List Document) (user : ReqUser) (now : Millis)
    (id : String) : Except DocError Bytes × List Document :=
  match findDocumentById docs id with
  | none => (.error .notFound, docs)
  | some doc =>
    if doc.accessLevel > user.clearanceLevel then
      (.error .accessDenied, docs)
    else if docExpiredAt doc now then
      (.error .expired, docs)
    else
      match decryptFileRuntime doc.encryptedContent doc.encryptionKey with
      | Except.error _ => (.error .decryptionFailed, docs)
      | Except.ok bytes =>
        let doc' := { doc with
          downloadCount := doc.downloadCount + 1
          accessLog := doc.accessLog ++
            [{ action := "downloaded", employeeId := user.employeeId, timestamp := now }]
          updatedAt := now }
        (.ok bytes, storeDocument docs doc')

/-- `DELETE /documents/:id`: only the uploader or clearance 5 may delete;
the delete is soft — `status` becomes `deleted` and the record stays in the
store. -/
def deleteDocumentRoute (docs : List Document) (user : ReqUser) (now : Millis)
    (id : String) : Except DocError Unit × List Document :=
  match findDocumentById docs id with
  | none => (.error .notFound, docs)
  | some doc =>
    if doc.uploadedBy != user.employeeId && user.clearanceLevel < 5 then
      (.error .deleteAccessDenied, docs)
    else
      let doc' := { doc with
        status := "deleted"
        updatedAt := now
        accessLog := doc.accessLog ++
          [{ action := "deleted", employeeId := user.employeeId, timestamp := now }] }
      (.ok (), storeDocument docs doc')

/-! ### Messages data model and routes (`data/messages.js`,
`routes/messages.js`) -/

/-- The `content` field of a stored message: either the plaintext (when
`isEncrypted` is false) or the combined encrypted payload. -/
inductive StoredContent where
  | plain (text : Bytes)
  | encrypted (payload : EncPayload)
deriving DecidableEq, Repr

/-- A stored message record (`data/messages.js` seeds and the record built
by `POST /messages`). -/
structure Message where
  id : String
  senderId : String
  senderName : String
  recipientId : String
  recipientName : String
  content : StoredContent
  originalContent : Bytes
  isEncrypted : Bool
  encryptionKey : Option Nat
  priority : String
  category : String
  flightNumber : Option String
  status : String
  readAt : Option Millis
  createdAt : Millis
  updatedAt : Millis
deriving DecidableEq, Repr

/-- `findMessageById` from `data/messages.js`. -/
def findMessageById (msgs : List Message) (id : String) : Option Message :=
  msgs.find? (fun m => m.id == id)

/-- Net effect on the store of mutating a found message in place and calling
`updateMessage` (which merges back at the first index matching by `id`). -/
def storeMessage (msgs : List Message) (m : Message) : List Message :=
  match msgs with
  | [] => []
  | x :: rest => if x.id == m.id then m :: rest else x :: storeMessage rest m

/-- `deleteMessage` from `data/messages.js`: `findIndex` then `splice` — the
record is physically removed from the array. -/
def dataDeleteMessage (msgs : List Message) (id : String) : Bool × List Message :=
  if (msgs.find? (fun m => m.id == id)).isSome then
    (true, msgs.eraseP (fun m => m.id == id))
  else
    (false, msgs)

/-- The fields of a message returned by the API: the handlers copy the
record and `delete` `encryptionKey` and `originalContent` before responding,
so the response type has neither field. -/
structure MessageResponse where
  id : String
  senderId : String
  senderName : String
  recipientId : String
  recipientName : String
  content : StoredContent
  isEncrypted : Bool
  priority : String
  category : String
  flightNumber : Option String
  status : String
  readAt : Option Millis
  createdAt : Millis
  updatedAt : Millis
deriving DecidableEq, Repr

/-- Project a stored message to its API response shape (drops
`encryptionKey` and `originalContent`). -/
def Message.toResponse (m : Message) : MessageResponse :=
  { id := m.id, senderId := m.senderId, senderName := m.senderName,
    recipientId := m.recipientId, recipientName := m.recipientName,
    content := m.content, isEncrypted := m.isEncrypted,
    priority := m.priority, category := m.category,
    flightNumber := m.flightNumber, status := m.status,
    readAt := m.readAt, createdAt := m.createdAt, updatedAt := m.updatedAt }

/-- Outcome of `POST /messages`; an error thrown by `encryptMessage` is
caught by `asyncHandler` and becomes an error response, carried here as
`encryptionError`. -/
inductive SendResult where
  | recipientNotFound
  | recipientInactive
  | encryptionError (message : String)
  | sent (response : MessageResponse)
deriving DecidableEq, Repr

/-- The `newMessage` record literal of `POST /messages`, filled from the
locals the handler computed just above it (`messageContent`,
`encryptionKey`); the plaintext is always stored in `originalContent`
(source comment: "Store original for demo purposes"). -/
def newMessageRecord (sender : ReqUser) (recipientName : String)
    (now : Millis) (newId : String) (recipientId : String)
    (messageContent : StoredContent) (originalContent : Bytes)
    (isEncrypted : Bool) (encryptionKey : Option Nat)
    (priority category : String) (flightNumber : Option String) : Message :=
  { id := newId, senderId := sender.employeeId, senderName := sender.name,
    recipientId := recipientId, recipientName := recipientName,
    content := messageContent, originalContent := originalContent,
    isEncrypted := isEncrypted, encryptionKey := encryptionKey,
    priority := priority, category := category, flightNumber := flightNumber,
    status := "sent", readAt := none, createdAt := now, updatedAt := now }

/-- `POST /messages`: verify the recipient exists and is active; when
`isEncrypted`, call `encryptMessage` as it actually executes — the call
always throws (see the encryption section), the thrown error propagates out
of the handler and nothing is stored; otherwise build the
`newMessageRecord`, append it to the store, and respond with the record
minus `encryptionKey` and `originalContent`. -/
def sendMessage (users : List User) (msgs : List Message) (sender : ReqUser)
    (now : Millis) (newId : String) (key iv : Nat)
    (recipientId : String) (content : Bytes) (isEncrypted : Bool)
    (priority category : String) (flightNumber : Option String) :
    SendResult × List Message :=
  match findUserByEmployeeId users recipientId with
  | none => (.recipientNotFound, msgs)
  | some recipient =>
    if !recipient.isActive then (.recipientInactive, msgs)
    else
      match (if isEncrypted then
          (encryptMessageRuntime key iv content).map
            (fun r => (StoredContent.encrypted r.encryptedContent, some r.key))
        else Except.ok (StoredContent.plain content, none)) with
      | Except.error e => (.encryptionError e, msgs)
      | Except.ok (stored, encKey) =>
        let m := newMessageRecord sender recipient.name now newId recipientId
          stored content isEncrypted encKey priority category flightNumber
        (.sent m.toResponse, msgs ++ [m])

/-- Content of a message as rendered in a read response. -/
inductive ReadContent where
  | raw (c : StoredContent)
  | decrypted (text : Bytes)
  | undecryptable
deriving DecidableEq, Repr

/-- Outcome of `GET /messages/:id`. -/
inductive ReadResult where
  | notFound
  | accessDenied
  | ok (content : ReadContent) (response : MessageResponse)
deriving DecidableEq, Repr

/-- `GET /messages/:id`: not-found, then the sender-or-recipient access
check (no clearance input at all); mark `readAt` once when the requester is
the recipient; decrypt for the recipient via `decryptMessage` as it actually
executes, substituting the undecryptable marker on failure — which, per the
encryption section, is every encrypted read. -/
def readMessage (msgs : List Message) (requester : ReqUser) (now : Millis)
    (id : String) : ReadResult × List Message :=
  match findMessageById msgs id with
  | none => (.notFound, msgs)
  | some m =>
    if m.senderId != requester.employeeId && m.recipientId != requester.employeeId then
      (.accessDenied, msgs)
    else
      let m' :=
        if m.recipientId == requester.employeeId && m.readAt.isNone then
          { m with readAt := some now, updatedAt := now }
        else m
      let rendered : ReadContent :=
        if m.recipientId == requester.employeeId && m.isEncrypted
            && m.encryptionKey.isSome then
          match m.content, m.encryptionKey with
          | .encrypted p, some k =>
            match decryptMessageRuntime p k with
            | Except.ok pt => .decrypted pt
            | Except.error _ => .undecryptable
          | _, _ => .undecryptable
        else
          .raw m.content
      (.ok rendered m'.toResponse, storeMessage msgs m')

/-- Outcome of `DELETE /messages/:id`. -/
inductive DeleteMsgResult where
  | notFound
  | accessDenied
  | deleteTimeExpired
  | deleteFailed
  | success
deriving DecidableEq, Repr

/-- The delete window constant: 5 minutes in milliseconds. -/
def maxDeleteTimeMs : Nat := 5 * 60 * 1000

/-- `DELETE /messages/:id`: only the sender may delete; a message that has
been read is rejected once `Date.now() - createdAt` exceeds 5 minutes (the
age is measured from creation); otherwise `deleteMessage` physically removes
the record. -/
def deleteMessageRoute (msgs : List Message) (requester : ReqUser)
    (now : Millis) (id : String) : DeleteMsgResult × List Message :=
  match findMessageById msgs id with
  | none => (.notFound, msgs)
  | some m =>
    if m.senderId != requester.employeeId then
      (.accessDenied, msgs)
    else
      let messageAge := now - m.createdAt
      if m.readAt.isSome && decide (messageAge > maxDeleteTimeMs) then
        (.deleteTimeExpired, msgs)
      else
        match dataDeleteMessage msgs id with
        | (true, msgs') => (.success, msgs')
        | (false, _) => (.deleteFailed, msgs)

/-- Iterated failed login attempts: run the login handler once per listed
timestamp with a fixed (wrong) password, threading the user store. -/
def failedAttempts (users : List User) (employeeId w : String) :
    List Millis → List User
  | [] => users
  | t :: ts => failedAttempts (login users t employeeId w).2 employeeId w ts

/-! ## Supporting lemmas about the idealized cipher -/

theorem keystream_lt (key iv i : Nat) : keystream key iv i < 256 :=
  Nat.mod_lt _ (by norm_num)

theorem xorStream_xorStream (key iv : Nat) :
    ∀ (i : Nat) (data : Bytes), (∀ b ∈ data, b < 256) →
      xorStream key iv i (xorStream key iv i data) = data := by
  intro i data
  induction data generalizing i with
  | nil => intro _; rfl
  | cons b rest ih =>
    intro h
    have hb : b < 256 := h b (List.mem_cons_self b rest)
    have hk : keystream key iv i < 256 := keystream_lt key iv i
    have hx : (b % 256) ^^^ keystream key iv i < 256 := by
      have h1 : b % 256 < 2 ^ 8 := by
        simpa using Nat.mod_lt b (show 0 < 256 by norm_num)
      have h2 : keystream key iv i < 2 ^ 8 := by simpa using hk
      simpa using Nat.xor_lt_two_pow h1 h2
    simp only [xorStream]
    refine congrArg₂ List.cons ?_ (ih (i + 1) (fun x hx => h x (List.mem_cons_of_mem b hx)))
    rw [Nat.mod_eq_of_lt hx, Nat.xor_assoc, Nat.xor_self, Nat.xor_zero,
      Nat.mod_eq_of_lt hb]

/-- Round-trip law of the idealized AES-256-GCM layer: decrypting with the
same key and the same associated data returns the plaintext exactly. -/
theorem gcm_roundtrip (key iv : Nat) (aad : String) (pt : Bytes)
    (hb : ∀ b ∈ pt, b < 256) :
    gcmDecrypt key aad (gcmEncrypt key iv aad pt) = Except.ok pt := by
  simp only [gcmEncrypt, gcmDecrypt, if_pos rfl]
  exact congrArg Except.ok (xorStream_xorStream key iv 0 pt hb)

/-- Fail-closed: decryption under a different associated-data purpose tag is
rejected. -/
theorem gcm_wrong_purpose_fails (key iv : Nat) (aad aad' : String) (pt : Bytes)
    (hne : aad' ≠ aad) :
    gcmDecrypt key aad' (gcmEncrypt key iv aad pt) =
      Except.error "Unsupported state or unable to authenticate data" := by
  simp only [gcmEncrypt, gcmDecrypt]
  rw [if_neg]
  intro hcontra
  exact hne (congrArg GcmTag.aad hcontra).symm

/-- Fail-closed: any alteration of the ciphertext is rejected. -/
theorem gcm_tampered_ciphertext_fails (key iv : Nat) (aad : String)
    (pt ct' : Bytes) (hne : ct' ≠ xorStream key iv 0 pt) :
    gcmDecrypt key aad
      { iv := iv, ciphertext := ct', tag := (gcmEncrypt key iv aad pt).tag } =
      Except.error "Unsupported state or unable to authenticate data" := by
  simp only [gcmEncrypt, gcmDecrypt]
  rw [if_neg]
  intro hcontra
  exact hne (congrArg GcmTag.ciphertext hcontra).symm

/-- Fail-closed: any alteration of the authentication tag is rejected. -/
theorem gcm_tampered_tag_fails (key iv : Nat) (aad : String) (pt : Bytes)
    (tag' : GcmTag) (hne : tag' ≠ (gcmEncrypt key iv aad pt).tag) :
    gcmDecrypt key aad
      { iv := iv, ciphertext := xorStream key iv 0 pt, tag := tag' } =
      Except.error "Unsupported state or unable to authenticate data" := by
  simp only [gcmEncrypt, gcmDecrypt]
  rw [if_neg]
  intro hcontra
  exact hne (by simpa [gcmEncrypt] using hcontra)

/-! ## C3 -/

/-- **C3** (code bug): as `utils/encryption.js` actually executes, every
encryption and decryption call fails — the file calls
`crypto.createCipherGCM` / `crypto.createDecipherGCM`, which are not
functions of the Node.js crypto module — so no (plaintext, purpose) pair is
ever encrypted, and the round-trip and fail-closed behavior exists only at
the intended layer (`gcm_roundtrip`, `gcm_wrong_purpose_fails`,
`gcm_tampered_ciphertext_fails`, `gcm_tampered_tag_fails`). -/
theorem encryption_calls_always_throw :
    ∀ (key iv : Nat) (message fileBuffer : Bytes) (p : EncPayload) (k : Nat),
      encryptMessageRuntime key iv message =
        Except.error "Message encryption failed: crypto.createCipherGCM is not a function" ∧
      encryptFileRuntime key iv fileBuffer =
        Except.error "File encryption failed: crypto.createCipherGCM is not a function" ∧
      decryptMessageRuntime p k =
        Except.error "Message decryption failed: crypto.createDecipherGCM is not a function" ∧
      decryptFileRuntime p k =
        Except.error "File decryption failed: crypto.createDecipherGCM is not a function" := by
  intro key iv message fileBuffer p k
  exact ⟨rfl, rfl, rfl, rfl⟩

/-! ## C1

`verifyAccessToken` (`utils/jwt.js`) and `authenticateToken`
(`middleware/auth.js`) never call `isTokenBlacklisted`; the blacklist
utilities are exported but no verification path consults them (the logout
route comments that blacklisting would happen "in a real application"). -/

/-- Concrete claims payload for the C1 scenario. -/
def c1Payload : AccessPayload :=
  { employeeId := "AA12345", name := "Captain Sarah Johnson", role := "pilot",
    department := "flight-operations", clearanceLevel := 5,
    airline := "American Airlines", exp := 3000000,
    iss := "aviation-crew-api", aud := "aviation-crew" }

/-- Concrete validly-signed token for the C1 scenario. -/
def c1Token : Token :=
  { payload := c1Payload, sig := { secret := "test-secret", payload := c1Payload } }

/-- The seed user record the token resolves to. -/
def c1User : User :=
  { id := "user-001", employeeId := "AA12345",
    password := bcryptHash 12 0 "password123",
    name := "Captain Sarah Johnson", role := "pilot",
    department := "flight-operations", clearanceLevel := 5,
    airline := "American Airlines", isActive := true, lastLoginAt := none,
    failedLoginAttempts := 0, accountLockedUntil := none, updatedAt := 0 }

/-- A blacklist holding exactly the C1 token, unexpired until 3000000. -/
def c1Blacklist : Blacklist := blacklistToken [] c1Token 3000000

/-- **C1** counterexample: at time 1000000 the token is present and
unexpired in the blacklist, yet `verifyAccessToken` returns its claims and
`authenticateToken` authenticates the request — the blacklisted token is
accepted, not rejected with a revoked-token error. -/
theorem blacklist_not_consulted_cex :
    isTokenBlacklisted c1Blacklist 1000000 c1Token = true ∧
    verifyAccessToken "test-secret" 1000000 c1Token = Except.ok c1Payload ∧
    authenticateToken "test-secret" [c1User] 1000000 (some c1Token) =
      AuthResult.ok c1User.toReqUser := by
  refine ⟨by decide, rfl, rfl⟩

/-- **C1** (amended): access-token verification never consults the
blacklist.  A token that is present and unexpired in the blacklist is
nevertheless accepted: `verifyAccessToken` returns its claims whenever the
signature, expiry, issuer and audience are valid, and `authenticateToken`
authenticates it whenever additionally its user exists and is active. -/
theorem blacklisted_token_accepted (bl : Blacklist) (secret : String)
    (now : Millis) (token : Token) (users : List User) (u : User)
    (hbl : isTokenBlacklisted bl now token = true)
    (hsig : token.sig = { secret := secret, payload := token.payload })
    (hexp : now < token.payload.exp)
    (hiss : token.payload.iss = "aviation-crew-api")
    (haud : token.payload.aud = "aviation-crew")
    (hfind : findUserByEmployeeId users token.payload.employeeId = some u)
    (hact : u.isActive = true) :
    isTokenBlacklisted bl now token = true ∧
    verifyAccessToken secret now token = Except.ok token.payload ∧
    authenticateToken secret users now (some token) = AuthResult.ok u.toReqUser := by
  have hnle : ¬ token.payload.exp ≤ now := Nat.not_le_of_lt hexp
  refine ⟨hbl, ?_, ?_⟩
  · simp [verifyAccessToken, jwtVerify, hsig, hnle, hiss, haud]
  · simp [authenticateToken, jwtVerify, hsig, hnle, hfind, hact]

/-- Witness for `blacklisted_token_accepted` at the C1 scenario. -/
theorem blacklisted_token_accepted_witness :
    isTokenBlacklisted c1Blacklist 1000000 c1Token = true ∧
    verifyAccessToken "test-secret" 1000000 c1Token = Except.ok c1Token.payload ∧
    authenticateToken "test-secret" [c1User] 1000000 (some c1Token) =
      AuthResult.ok c1User.toReqUser :=
  blacklisted_token_accepted c1Blacklist "test-secret" 1000000 c1Token [c1User] c1User
    (by decide) (by decide) (by decide) (by decide) (by decide) (by decide) (by decide)

/-! ## C2 -/

/-- One failed login attempt on a singleton store: the counter is
incremented and the lock is set exactly when the counter reaches 5. -/
theorem login_fail_step (u : User) (now : Millis) (w : String)
    (hpw : bcryptCompare w u.password = false)
    (hact : u.isActive = true)
    (hnl : isLockedAt u now = false) :
    login [u] now u.employeeId w =
      (.invalidCredentials,
       [{ u with
            failedLoginAttempts := u.failedLoginAttempts + 1,
            accountLockedUntil :=
              if u.failedLoginAttempts + 1 ≥ 5 then some (now + lockDurationMs)
              else u.accountLockedUntil,
            updatedAt := now }]) := by
  simp [login, findUserByEmployeeId, storeUser, hnl, hact, hpw]

/-- **C2**: for any identity (arbitrary active account with a clean counter),
five consecutive failed login attempts, at arbitrary times, leave the
account locked until exactly `t5 + 30min`; a sixth attempt before that
instant — with any password, even the correct one — fails with
`ACCOUNT_LOCKED`, and an attempt at or after that instant passes the lock
gate again (a wrong password yields `INVALID_CREDENTIALS`, not
`ACCOUNT_LOCKED`). -/
theorem lockout_after_five_failures (u : User) (w p6 w7 : String)
    (t1 t2 t3 t4 t5 t6 t7 : Millis)
    (hpw : bcryptCompare w u.password = false)
    (hact : u.isActive = true)
    (h0 : u.failedLoginAttempts = 0)
    (hl : u.accountLockedUntil = none)
    (h6 : t6 < t5 + lockDurationMs)
    (h7 : t5 + lockDurationMs ≤ t7)
    (hpw7 : bcryptCompare w7 u.password = false) :
    failedAttempts [u] u.employeeId w [t1, t2, t3, t4, t5] =
      [{ u with
           failedLoginAttempts := 5,
           accountLockedUntil := some (t5 + lockDurationMs),
           updatedAt := t5 }] ∧
    (login (failedAttempts [u] u.employeeId w [t1, t2, t3, t4, t5])
        t6 u.employeeId p6).1 =
      LoginResult.accountLocked (t5 + lockDurationMs) ∧
    (login (failedAttempts [u] u.employeeId w [t1, t2, t3, t4, t5])
        t7 u.employeeId w7).1 =
      LoginResult.invalidCredentials := by
  have hrun : failedAttempts [u] u.employeeId w [t1, t2, t3, t4, t5] =
      [{ u with
           failedLoginAttempts := 5,
           accountLockedUntil := some (t5 + lockDurationMs),
           updatedAt := t5 }] := by
    simp [failedAttempts, login, findUserByEmployeeId, List.find?, isLockedAt,
      storeUser, hpw, hact, h0, hl]
  refine ⟨hrun, ?_, ?_⟩
  · rw [hrun]
    simp [login, findUserByEmployeeId, isLockedAt, h6]
  · rw [hrun]
    have hnl7 : ¬ t7 < t5 + lockDurationMs := Nat.not_lt_of_le h7
    simp [login, findUserByEmployeeId, isLockedAt, hnl7, hact, hpw7, storeUser]

/-- A concrete account for the C2 and C10 witnesses. -/
def c2User : User :=
  { id := "user-004", employeeId := "AB12345",
    password := bcryptHash 12 3 "SecurePass123!",
    name := "Demo Test Pilot", role := "pilot",
    department := "flight-operations", clearanceLevel := 5,
    airline := "Demo Airlines", isActive := true, lastLoginAt := none,
    failedLoginAttempts := 0, accountLockedUntil := none, updatedAt := 0 }

/-- Witness for `lockout_after_five_failures`: five wrong-password attempts
at times 1000..5000, a sixth at 6000 (locked; the correct password is even
presented), and one at `5000 + 30min` (unlocked again). -/
theorem lockout_after_five_failures_witness :
    failedAttempts [c2User] c2User.employeeId "wrong-pass"
        [1000, 2000, 3000, 4000, 5000] =
      [{ c2User with
           failedLoginAttempts := 5,
           accountLockedUntil := some (5000 + lockDurationMs),
           updatedAt := 5000 }] ∧
    (login (failedAttempts [c2User] c2User.employeeId "wrong-pass"
        [1000, 2000, 3000, 4000, 5000]) 6000 c2User.employeeId "SecurePass123!").1 =
      LoginResult.accountLocked (5000 + lockDurationMs) ∧
    (login (failedAttempts [c2User] c2User.employeeId "wrong-pass"
        [1000, 2000, 3000, 4000, 5000]) (5000 + lockDurationMs)
        c2User.employeeId "still-wrong").1 =
      LoginResult.invalidCredentials :=
  lockout_after_five_failures c2User "wrong-pass" "SecurePass123!" "still-wrong"
    1000 2000 3000 4000 5000 6000 (5000 + lockDurationMs)
    (by decide) (by decide) (by decide) (by decide) (by decide) (by decide) (by decide)

/-! ## C10 -/

/-- **C10**: the failed-attempt counter survives lock expiry.  For any
account whose lock instant has passed but whose counter is still at least 5,
a single further wrong-password attempt is answered `INVALID_CREDENTIALS`
and immediately re-locks the account until `now + 30min` — the counter is
incremented from its stale value, not restarted.  The only modelled resets
are a successful login (see `login`) and the admin `resetUserPassword`,
whose effect is stated alongside. -/
theorem stale_counter_relocks (u v : User) (w : String) (t0 now : Millis)
    (npw : String) (salt : Nat)
    (hlock : u.accountLockedUntil = some t0)
    (helapsed : t0 ≤ now)
    (hact : u.isActive = true)
    (hcnt : 5 ≤ u.failedLoginAttempts)
    (hpw : bcryptCompare w u.password = false) :
    login [u] now u.employeeId w =
      (.invalidCredentials,
       [{ u with
            failedLoginAttempts := u.failedLoginAttempts + 1,
            accountLockedUntil := some (now + lockDurationMs),
            updatedAt := now }]) ∧
    resetUserPassword [v] now v.employeeId npw salt =
      (true,
       [{ v with
            password := bcryptHash 12 salt npw,
            updatedAt := now,
            failedLoginAttempts := 0,
            accountLockedUntil := none }]) := by
  constructor
  · have hnl : isLockedAt u now = false := by
      simp [isLockedAt, hlock, Nat.not_lt_of_le helapsed]
    have h5 : u.failedLoginAttempts + 1 ≥ 5 := le_trans hcnt (Nat.le_succ _)
    simp [login, findUserByEmployeeId, List.find?, storeUser, hnl, hact, hpw, h5]
  · simp [resetUserPassword, findUserByEmployeeId, List.find?, storeUser]

/-- Witness for `stale_counter_relocks`: counter 5, lock expired at 2000000,
one more wrong password at 2500000. -/
theorem stale_counter_relocks_witness :
    login [{ c2User with failedLoginAttempts := 5, accountLockedUntil := some 2000000 }]
        2500000 c2User.employeeId "wrong-pass" =
      (.invalidCredentials,
       [{ c2User with
            failedLoginAttempts := 6,
            accountLockedUntil := some (2500000 + lockDurationMs),
            updatedAt := 2500000 }]) ∧
    resetUserPassword [c2User] 2500000 c2User.employeeId "FreshPass9!" 11 =
      (true,
       [{ c2User with
            password := bcryptHash 12 11 "FreshPass9!",
            updatedAt := 2500000,
            failedLoginAttempts := 0,
            accountLockedUntil := none }]) :=
  stale_counter_relocks
    { c2User with failedLoginAttempts := 5, accountLockedUntil := some 2000000 }
    c2User "wrong-pass" 2000000 2500000 "FreshPass9!" 11
    (by decide) (by decide) (by decide) (by decide) (by decide)

/-! ## C7 -/

/-- A user with pending failed attempts and a pending lock, for the C7
scenario. -/
def c7User : User :=
  { id := "user-003", employeeId := "AA12347",
    password := bcryptHash 12 4 "password123",
    name := "Flight Attendant Lisa Martinez", role := "flight-attendant",
    department := "cabin-crew", clearanceLevel := 2,
    airline := "American Airlines", isActive := true, lastLoginAt := none,
    failedLoginAttempts := 3, accountLockedUntil := some 999000, updatedAt := 0 }

/-- **C7** counterexample: a successful password change with the correct
current password leaves `failedLoginAttempts` at 3 and `accountLockedUntil`
at its old value — the handler resets neither, contrary to the claim that a
successful change resets the counter to 0 and the lock to null. -/
theorem changePassword_no_reset_cex :
    (changePassword [c7User] 5000 "AA12347" "password123" "NewPass456!" 7).1 =
      PasswordChangeResult.success ∧
    (changePassword [c7User] 5000 "AA12347" "password123" "NewPass456!" 7).2.map
      (fun x => (x.failedLoginAttempts, x.accountLockedUntil)) =
      [(3, some 999000)] := by
  refine ⟨rfl, rfl⟩

/-- **C7** (amended): `PUT /auth/password` fails with
`INVALID_CURRENT_PASSWORD` when the presented current password does not
verify against the stored hash; on success it replaces the hash with a
bcrypt re-hash of the new password and stamps `updatedAt`, but leaves
`failedLoginAttempts` and `accountLockedUntil` unchanged. -/
theorem changePassword_replaces_hash_only :
    (∀ (u : User) (now : Millis) (cur npw : String) (salt : Nat),
      bcryptCompare cur u.password = false →
      changePassword [u] now u.employeeId cur npw salt =
        (PasswordChangeResult.invalidCurrentPassword, [u])) ∧
    (∀ (u : User) (now : Millis) (cur npw : String) (salt : Nat),
      bcryptCompare cur u.password = true →
      changePassword [u] now u.employeeId cur npw salt =
        (PasswordChangeResult.success,
         [{ u with password := bcryptHash 12 salt npw, updatedAt := now }])) := by
  constructor
  · intro u now cur npw salt hpw
    simp [changePassword, findUserByEmployeeId, List.find?, hpw]
  · intro u now cur npw salt hpw
    simp [changePassword, findUserByEmployeeId, List.find?, storeUser, hpw]

/-- Witness for `changePassword_replaces_hash_only`: a wrong current
password is rejected, and a correct one replaces only the hash. -/
theorem changePassword_replaces_hash_only_witness :
    changePassword [c7User] 5000 c7User.employeeId "not-the-password" "NewPass456!" 7 =
      (PasswordChangeResult.invalidCurrentPassword, [c7User]) ∧
    changePassword [c7User] 5000 c7User.employeeId "password123" "NewPass456!" 7 =
      (PasswordChangeResult.success,
       [{ c7User with password := bcryptHash 12 7 "NewPass456!", updatedAt := 5000 }]) :=
  ⟨changePassword_replaces_hash_only.1 c7User 5000 "not-the-password" "NewPass456!" 7
      (by decide),
   changePassword_replaces_hash_only.2 c7User 5000 "password123" "NewPass456!" 7
      (by decide)⟩

/-! ## C4 -/

/-- **C4** (code bug): clearance gating of documents, evaluated on the code
as it executes.  A requester with clearance below a document's `accessLevel`
is denied the detail read and the download and the document is excluded from
the listing, exactly as claimed.  With sufficient clearance on an active,
unexpired document, the detail read succeeds and the document is listed —
but the download, after passing every access check, always fails with
`DECRYPTION_FAILED`, because `decryptFile` unconditionally throws
(`crypto.createDecipherGCM` is not a function; see the encryption section),
so the claim's download-success half never holds in the program. -/
theorem document_clearance_gating_and_download_failure :
    (∀ (docs : List Document) (doc : Document) (user : ReqUser) (now : Millis)
        (id : String),
      findDocumentById docs id = some doc →
      user.clearanceLevel < doc.accessLevel →
      (getDocumentDetail docs user now id).1 = Except.error DocError.accessDenied ∧
      (downloadDocument docs user now id).1 = Except.error DocError.accessDenied ∧
      doc ∉ listDocuments docs user now) ∧
    (∀ (docs : List Document) (doc : Document) (user : ReqUser) (now : Millis)
        (id : String),
      findDocumentById docs id = some doc →
      doc.accessLevel ≤ user.clearanceLevel →
      doc.status = "active" →
      (∀ e, doc.expiresAt = some e → now < e) →
      (getDocumentDetail docs user now id).1 =
        Except.ok { doc with
          accessLog := doc.accessLog ++
            [{ action := "viewed", employeeId := user.employeeId, timestamp := now }] } ∧
      doc ∈ listDocuments docs user now ∧
      (downloadDocument docs user now id).1 =
        Except.error DocError.decryptionFailed) := by
  constructor
  · intro docs doc user now id hfind hcl
    have hgt : doc.accessLevel > user.clearanceLevel := hcl
    refine ⟨?_, ?_, ?_⟩
    · simp [getDocumentDetail, hfind, hgt]
    · simp [downloadDocument, hfind, hgt]
    · intro hmem
      have h1 := (List.mem_filter.mp hmem).1
      have h2 := (List.mem_filter.mp h1).2
      simp at h2
      exact absurd h2.1 (Nat.not_le_of_lt hcl)
  · intro docs doc user now id hfind hcl hst hexp
    have hngt : ¬ doc.accessLevel > user.clearanceLevel := Nat.not_lt_of_le hcl
    have hnexp : docExpiredAt doc now = false := by
      rcases hcase : doc.expiresAt with _ | e
      · simp [docExpiredAt, hcase]
      · have hlt := hexp e hcase
        simp [docExpiredAt, hcase]
        exact Nat.le_of_lt hlt
    refine ⟨?_, ?_, ?_⟩
    · simp [getDocumentDetail, hfind, hngt, hnexp]
    · have hmem : doc ∈ docs := List.mem_of_find?_eq_some hfind
      refine List.mem_filter.mpr ⟨List.mem_filter.mpr ⟨hmem, ?_⟩, ?_⟩
      · simp [hcl, hst]
      · cases hcase : doc.expiresAt with
        | none => rfl
        | some e => simpa using hexp e hcase
    · simp [downloadDocument, hfind, hngt, hnexp, decryptFileRuntime, cryptoCall,
        nodeCryptoMembers]

/-- A level-4 document, for the C4 witness. -/
def c4DocHigh : Document :=
  { id := "doc-001", title := "AA1234 Flight Plan", category := "flight-plan",
    accessLevel := 4, fileName := "AA1234-flight-plan.pdf",
    encryptedContent := (encryptFileIntended 42 7 [10, 20, 30]).encryptedContent,
    encryptionKey := 42, uploadedBy := "AA12349", status := "active",
    downloadCount := 3, expiresAt := none, updatedAt := 0, accessLog := [] }

/-- A level-2 document with an expiry in the future, for the C4 witness. -/
def c4DocLow : Document :=
  { id := "doc-004", title := "Crew Manifest - AA1234", category := "crew-manifest",
    accessLevel := 2, fileName := "AA1234-crew-manifest.docx",
    encryptedContent := (encryptFileIntended 97 5 [1, 2, 3, 4]).encryptedContent,
    encryptionKey := 97, uploadedBy := "AA12348", status := "active",
    downloadCount := 0, expiresAt := some 9000000, updatedAt := 0, accessLog := [] }

/-- A clearance-2 requester for the C4 witness. -/
def c4Requester : ReqUser :=
  { employeeId := "AA12347", name := "Flight Attendant Lisa Martinez",
    role := "flight-attendant", department := "cabin-crew",
    clearanceLevel := 2, airline := "American Airlines" }

/-- Witness for `document_clearance_gating_and_download_failure`: the
clearance-2 requester is denied the level-4 document on every path, and on
the level-2 document gets the detail and the listing but a
`DECRYPTION_FAILED` download. -/
theorem document_clearance_gating_and_download_failure_witness :
    ((getDocumentDetail [c4DocHigh, c4DocLow] c4Requester 1000 "doc-001").1 =
        Except.error DocError.accessDenied ∧
      (downloadDocument [c4DocHigh, c4DocLow] c4Requester 1000 "doc-001").1 =
        Except.error DocError.accessDenied ∧
      c4DocHigh ∉ listDocuments [c4DocHigh, c4DocLow] c4Requester 1000) ∧
    ((getDocumentDetail [c4DocHigh, c4DocLow] c4Requester 1000 "doc-004").1 =
        Except.ok { c4DocLow with
          accessLog := c4DocLow.accessLog ++
            [{ action := "viewed", employeeId := c4Requester.employeeId,
               timestamp := 1000 }] } ∧
      c4DocLow ∈ listDocuments [c4DocHigh, c4DocLow] c4Requester 1000 ∧
      (downloadDocument [c4DocHigh, c4DocLow] c4Requester 1000 "doc-004").1 =
        Except.error DocError.decryptionFailed) :=
  ⟨document_clearance_gating_and_download_failure.1 [c4DocHigh, c4DocLow]
      c4DocHigh c4Requester 1000 "doc-001" (by decide) (by decide),
   document_clearance_gating_and_download_failure.2 [c4DocHigh, c4DocLow]
      c4DocLow c4Requester 1000 "doc-004" (by decide) (by decide) (by decide)
      (by intro e he
          have h : some 9000000 = some e := he
          injection h with h2
          exact h2 ▸ (by norm_num))⟩

/-! ## C5 -/

/-- **C5**: a requester who is neither the sender nor the recipient of a
message is denied the read with `MESSAGE_ACCESS_DENIED`, whatever the
requester's clearance level (the handler never inspects it), and the store
is untouched. -/
theorem message_read_third_party_denied (msgs : List Message) (m : Message)
    (requester : ReqUser) (now : Millis) (id : String)
    (hfind : findMessageById msgs id = some m)
    (hs : m.senderId ≠ requester.employeeId)
    (hr : m.recipientId ≠ requester.employeeId) :
    readMessage msgs requester now id = (ReadResult.accessDenied, msgs) := by
  simp [readMessage, hfind, hs, hr]

/-- A message between AA12345 and AA12346, for the C5 witness. -/
def c5Message : Message :=
  { id := "msg-001", senderId := "AA12345", senderName := "Captain Sarah Johnson",
    recipientId := "AA12346", recipientName := "First Officer Mike Chen",
    content := .plain [87, 101], originalContent := [87, 101],
    isEncrypted := false, encryptionKey := none, priority := "high",
    category := "weather", flightNumber := some "AA1234", status := "sent",
    readAt := none, createdAt := 100000, updatedAt := 100000 }

/-- A clearance-5 third party, for the C5 witness. -/
def c5ThirdParty : ReqUser :=
  { employeeId := "DL54321", name := "Captain James Thompson", role := "pilot",
    department := "flight-operations", clearanceLevel := 5,
    airline := "Delta Air Lines" }

/-- Witness for `message_read_third_party_denied`: even a clearance-5 pilot
who is neither sender nor recipient is denied. -/
theorem message_read_third_party_denied_witness :
    readMessage [c5Message] c5ThirdParty 200000 "msg-001" =
      (ReadResult.accessDenied, [c5Message]) :=
  message_read_third_party_denied [c5Message] c5Message c5ThirdParty 200000
    "msg-001" (by decide) (by decide) (by decide)

/-! ## C6 -/

/-- The sender of the C6 and C8 scenarios. -/
def c6Sender : ReqUser :=
  { employeeId := "AA12345", name := "Captain Sarah Johnson", role := "pilot",
    department := "flight-operations", clearanceLevel := 5,
    airline := "American Airlines" }

/-- A message created at time 0 and read at 600000 (ten minutes later), for
the C6 counterexample. -/
def c6Message : Message :=
  { id := "msg-010", senderId := "AA12345", senderName := "Captain Sarah Johnson",
    recipientId := "AA12346", recipientName := "First Officer Mike Chen",
    content := .plain [72, 105], originalContent := [72, 105],
    isEncrypted := false, encryptionKey := none, priority := "normal",
    category := "general", flightNumber := none, status := "sent",
    readAt := some 600000, createdAt := 0, updatedAt := 600000 }

/-- **C6** counterexample: the message was read at 600000 and the sender
attempts deletion at 660000 — one minute after the read, well inside the
claim's five-minute after-read window — yet the handler rejects it with
`DELETE_TIME_EXPIRED`, because the window is measured from `createdAt`
(age 660000 ms > 5 min), not from the read. -/
theorem message_delete_window_cex :
    deleteMessageRoute [c6Message] c6Sender 660000 "msg-010" =
      (DeleteMsgResult.deleteTimeExpired, [c6Message]) := by
  decide

/-- **C6** (amended): only the sender may delete a message
(`DELETE_ACCESS_DENIED` otherwise); a message that has been read can be
deleted only while `now - createdAt ≤ 5min` — the five-minute window runs
from the message's creation, not from the read — failing
`DELETE_TIME_EXPIRED` afterwards; an unread message is deletable by the
sender regardless of age.  A successful delete removes the record. -/
theorem message_delete_window_from_creation :
    (∀ (msgs : List Message) (m : Message) (requester : ReqUser) (now : Millis)
        (id : String),
      findMessageById msgs id = some m →
      m.senderId ≠ requester.employeeId →
      deleteMessageRoute msgs requester now id = (DeleteMsgResult.accessDenied, msgs)) ∧
    (∀ (msgs : List Message) (m : Message) (requester : ReqUser) (now : Millis)
        (id : String),
      findMessageById msgs id = some m →
      m.senderId = requester.employeeId →
      m.readAt.isSome = true →
      now - m.createdAt > maxDeleteTimeMs →
      deleteMessageRoute msgs requester now id =
        (DeleteMsgResult.deleteTimeExpired, msgs)) ∧
    (∀ (msgs : List Message) (m : Message) (requester : ReqUser) (now : Millis)
        (id : String),
      findMessageById msgs id = some m →
      m.senderId = requester.employeeId →
      (m.readAt = none ∨ now - m.createdAt ≤ maxDeleteTimeMs) →
      deleteMessageRoute msgs requester now id =
        (DeleteMsgResult.success, msgs.eraseP (fun x => x.id == id))) := by
  refine ⟨?_, ?_, ?_⟩
  · intro msgs m requester now id hfind hs
    simp [deleteMessageRoute, hfind, hs]
  · intro msgs m requester now id hfind hs hread hage
    simp [deleteMessageRoute, hfind, hs, hread, hage, dataDeleteMessage]
  · intro msgs m requester now id hfind hs hwin
    have hfind' : msgs.find? (fun x => x.id == id) = some m := hfind
    have hcond : (m.readAt.isSome && decide (now - m.createdAt > maxDeleteTimeMs)) = false := by
      rcases hwin with hnone | hle
      · simp [hnone]
      · simp [Nat.not_lt_of_le hle]
    simp [deleteMessageRoute, hfind, hs, hcond, dataDeleteMessage, hfind']

/-- A fresh unread message from the same sender, for the C6 witness. -/
def c6Unread : Message :=
  { c6Message with id := "msg-011", readAt := none, updatedAt := 0 }

/-- Witness for `message_delete_window_from_creation`: a third party is
denied; the sender is rejected on the old read message; the sender deletes
the unread message at an arbitrary late time. -/
theorem message_delete_window_from_creation_witness :
    deleteMessageRoute [c6Message] c5ThirdParty 660000 "msg-010" =
      (DeleteMsgResult.accessDenied, [c6Message]) ∧
    deleteMessageRoute [c6Message] c6Sender 700000 "msg-010" =
      (DeleteMsgResult.deleteTimeExpired, [c6Message]) ∧
    deleteMessageRoute [c6Unread] c6Sender 900000 "msg-011" =
      (DeleteMsgResult.success,
       [c6Unread].eraseP (fun x => x.id == "msg-011")) :=
  ⟨message_delete_window_from_creation.1 [c6Message] c6Message c5ThirdParty
      660000 "msg-010" (by decide) (by decide),
   message_delete_window_from_creation.2.1 [c6Message] c6Message c6Sender
      700000 "msg-010" (by decide) (by decide) (by decide) (by decide),
   message_delete_window_from_creation.2.2 [c6Unread] c6Unread c6Sender
      900000 "msg-011" (by decide) (by decide) (Or.inl (by decide))⟩

/-! ## C8 -/

theorem storeDocument_length (docs : List Document) (d : Document) :
    (storeDocument docs d).length = docs.length := by
  induction docs with
  | nil => rfl
  | cons x rest ih =>
    simp only [storeDocument]
    by_cases h : (x.id == d.id) = true
    · simp [h]
    · simp [h, ih]

theorem storeDocument_map_status (d d' : Document)
    (hid : d'.id = d.id) (hst : d'.status = d.status) :
    ∀ docs : List Document,
      docs.find? (fun x => x.id == d.id) = some d →
      (storeDocument docs d').map Document.status = docs.map Document.status := by
  intro docs
  induction docs with
  | nil => intro h; simp at h
  | cons x rest ih =>
    intro hfind
    rw [List.find?_cons] at hfind
    by_cases h : (x.id == d.id) = true
    · rw [h] at hfind
      have hx : x = d := by injection hfind
      have h' : (x.id == d'.id) = true := by rw [hid]; exact h
      simp only [storeDocument, h', if_pos, List.map_cons]
      rw [hst, hx]
    · have hb : (x.id == d.id) = false := by simpa using h
      rw [hb] at hfind
      have h' : (x.id == d'.id) = false := by rw [hid]; exact hb
      simp only [storeDocument, h', Bool.false_eq_true, if_false, List.map_cons]
      rw [ih hfind]

/-- Case analysis of the detail route's resulting store: either untouched,
or the first-match replacement of the found document by a record with the
same `id` and the same `status`. -/
theorem getDocumentDetail_store_cases (docs : List Document) (user : ReqUser)
    (now : Millis) (id : String) :
    (getDocumentDetail docs user now id).2 = docs ∨
    ∃ doc doc', findDocumentById docs id = some doc ∧ doc'.id = doc.id ∧
      doc'.status = doc.status ∧
      (getDocumentDetail docs user now id).2 = storeDocument docs doc' := by
  rcases hcase : findDocumentById docs id with _ | doc
  · left
    simp [getDocumentDetail, hcase]
  · by_cases h1 : doc.accessLevel > user.clearanceLevel
    · left
      simp [getDocumentDetail, hcase, h1]
    · cases hb : docExpiredAt doc now with
      | true =>
        left
        simp [getDocumentDetail, hcase, h1, hb]
      | false =>
        right
        have hstore : (getDocumentDetail docs user now id).2 =
            storeDocument docs { doc with
              accessLog := doc.accessLog ++
                [{ action := "viewed", employeeId := user.employeeId,
                   timestamp := now }] } := by
          simp [getDocumentDetail, hcase, h1, hb]
        exact ⟨doc, { doc with
          accessLog := doc.accessLog ++
            [{ action := "viewed", employeeId := user.employeeId,
               timestamp := now }] }, rfl, rfl, rfl, hstore⟩

/-- Case analysis of the download route's resulting store. -/
theorem downloadDocument_store_cases (docs : List Document) (user : ReqUser)
    (now : Millis) (id : String) :
    (downloadDocument docs user now id).2 = docs ∨
    ∃ doc doc', findDocumentById docs id = some doc ∧ doc'.id = doc.id ∧
      doc'.status = doc.status ∧
      (downloadDocument docs user now id).2 = storeDocument docs doc' := by
  rcases hcase : findDocumentById docs id with _ | doc
  · left
    simp [downloadDocument, hcase]
  · by_cases h1 : doc.accessLevel > user.clearanceLevel
    · left
      simp [downloadDocument, hcase, h1]
    · cases hb : docExpiredAt doc now with
      | true =>
        left
        simp [downloadDocument, hcase, h1, hb]
      | false =>
        rcases h3 : decryptFileRuntime doc.encryptedContent doc.encryptionKey with e | b
        · left
          simp [downloadDocument, hcase, h1, hb, h3]
        · right
          have hstore : (downloadDocument docs user now id).2 =
              storeDocument docs { doc with
                downloadCount := doc.downloadCount + 1
                accessLog := doc.accessLog ++
                  [{ action := "downloaded", employeeId := user.employeeId,
                     timestamp := now }]
                updatedAt := now } := by
            simp [downloadDocument, hcase, h1, hb, h3]
          exact ⟨doc, { doc with
            downloadCount := doc.downloadCount + 1
            accessLog := doc.accessLog ++
              [{ action := "downloaded", employeeId := user.employeeId,
                 timestamp := now }]
            updatedAt := now }, rfl, rfl, rfl, hstore⟩

/-- Case analysis of the document delete route's resulting store. -/
theorem deleteDocumentRoute_store_cases (docs : List Document) (user : ReqUser)
    (now : Millis) (id : String) :
    (deleteDocumentRoute docs user now id).2 = docs ∨
    ∃ doc', (deleteDocumentRoute docs user now id).2 = storeDocument docs doc' := by
  rcases hcase : findDocumentById docs id with _ | doc
  · left
    simp [deleteDocumentRoute, hcase]
  · cases hb : (doc.uploadedBy != user.employeeId && user.clearanceLevel < 5) with
    | true =>
      left
      simp [deleteDocumentRoute, hcase, hb]
    | false =>
      right
      have hstore : (deleteDocumentRoute docs user now id).2 =
          storeDocument docs { doc with
            status := "deleted"
            updatedAt := now
            accessLog := doc.accessLog ++
              [{ action := "deleted", employeeId := user.employeeId,
                 timestamp := now }] } := by
        simp [deleteDocumentRoute, hcase, hb]
      exact ⟨_, hstore⟩

/-- From a successful `findDocumentById`, the same record is the first match
of the predicate keyed by its own `id`. -/
theorem findDocumentById_self (docs : List Document) (id : String)
    (doc : Document) (h : findDocumentById docs id = some doc) :
    docs.find? (fun x => x.id == doc.id) = some doc := by
  have hp := List.find?_some h
  have hdid : doc.id = id := by simpa using hp
  rw [← hdid] at h
  exact h

/-- The detail and download routes never change any document's `status`, and
no document route changes the number of stored records. -/
theorem docRoutes_preserve_store (docs : List Document) (user : ReqUser)
    (now : Millis) (id : String) :
    (getDocumentDetail docs user now id).2.map Document.status =
      docs.map Document.status ∧
    (downloadDocument docs user now id).2.map Document.status =
      docs.map Document.status ∧
    (getDocumentDetail docs user now id).2.length = docs.length ∧
    (downloadDocument docs user now id).2.length = docs.length ∧
    (deleteDocumentRoute docs user now id).2.length = docs.length := by
  have hget := getDocumentDetail_store_cases docs user now id
  have hdl := downloadDocument_store_cases docs user now id
  have hdel := deleteDocumentRoute_store_cases docs user now id
  refine ⟨?_, ?_, ?_, ?_, ?_⟩
  · rcases hget with h | ⟨doc, doc', hc, hid, hst, h⟩
    · rw [h]
    · rw [h]
      exact storeDocument_map_status doc doc' hid hst docs (findDocumentById_self docs id doc hc)
  · rcases hdl with h | ⟨doc, doc', hc, hid, hst, h⟩
    · rw [h]
    · rw [h]
      exact storeDocument_map_status doc doc' hid hst docs (findDocumentById_self docs id doc hc)
  · rcases hget with h | ⟨doc, doc', hc, hid, hst, h⟩
    · rw [h]
    · rw [h]
      exact storeDocument_length docs doc'
  · rcases hdl with h | ⟨doc, doc', hc, hid, hst, h⟩
    · rw [h]
    · rw [h]
      exact storeDocument_length docs doc'
  · rcases hdel with h | ⟨doc', h⟩
    · rw [h]
    · rw [h]
      exact storeDocument_length docs doc'

/-- A message from AA12345, unread, for the C8 counterexample. -/
def c8Message : Message :=
  { id := "msg-020", senderId := "AA12345", senderName := "Captain Sarah Johnson",
    recipientId := "AA12346", recipientName := "First Officer Mike Chen",
    content := .plain [79, 75], originalContent := [79, 75],
    isEncrypted := false, encryptionKey := none, priority := "low",
    category := "general", flightNumber := none, status := "sent",
    readAt := none, createdAt := 1000, updatedAt := 1000 }

/-- **C8** counterexample: deleting a message physically erases it — after
the sender deletes `msg-020` the in-memory message store is empty, so the
record did not survive as a soft-deleted entry. -/
theorem message_delete_erases_record_cex :
    deleteMessageRoute [c8Message] c6Sender 2000 "msg-020" =
      (DeleteMsgResult.success, ([] : List Message)) := by
  decide

/-- **C8** (amended): document deletion is soft — the record stays in the
store with `status = "deleted"` — and the modelled document routes never
change a status except that delete, nor drop records, so a deleted document
stays deleted; message deletion, by contrast, physically removes the record
from the in-memory store (`splice`). -/
theorem soft_delete_documents_hard_delete_messages :
    (∀ (doc : Document) (user : ReqUser) (now : Millis),
      doc.uploadedBy = user.employeeId ∨ 5 ≤ user.clearanceLevel →
      deleteDocumentRoute [doc] user now doc.id =
        (Except.ok (),
         [{ doc with
              status := "deleted", updatedAt := now,
              accessLog := doc.accessLog ++
                [{ action := "deleted", employeeId := user.employeeId,
                   timestamp := now }] }])) ∧
    (∀ (docs : List Document) (user : ReqUser) (now : Millis) (id : String),
      (getDocumentDetail docs user now id).2.map Document.status =
        docs.map Document.status ∧
      (downloadDocument docs user now id).2.map Document.status =
        docs.map Document.status ∧
      (deleteDocumentRoute docs user now id).2.length = docs.length) ∧
    (∀ (m : Message) (requester : ReqUser) (now : Millis),
      m.senderId = requester.employeeId →
      m.readAt = none →
      deleteMessageRoute [m] requester now m.id =
        (DeleteMsgResult.success, ([] : List Message))) := by
  refine ⟨?_, ?_, ?_⟩
  · intro doc user now hauth
    have hcond : (doc.uploadedBy != user.employeeId && user.clearanceLevel < 5) = false := by
      rcases hauth with h | h
      · simp [h]
      · simp [Nat.not_lt_of_le h]
    simp [deleteDocumentRoute, findDocumentById, List.find?, hcond, storeDocument]
  · intro docs user now id
    obtain ⟨h1, h2, _, _, h5⟩ := docRoutes_preserve_store docs user now id
    exact ⟨h1, h2, h5⟩
  · intro m requester now hs hread
    simp [deleteMessageRoute, findMessageById, List.find?, hs, hread,
      dataDeleteMessage, List.eraseP_cons]

/-- A document deletable by its uploader, for the C8 witness. -/
def c8Doc : Document :=
  { id := "doc-010", title := "Ops Note", category := "operational",
    accessLevel := 1, fileName := "ops-note.txt",
    encryptedContent := (encryptFileIntended 5 9 [65, 66]).encryptedContent,
    encryptionKey := 5, uploadedBy := "AA12349", status := "active",
    downloadCount := 0, expiresAt := none, updatedAt := 0, accessLog := [] }

/-- The uploader of `c8Doc`, for the C8 witness. -/
def c8Uploader : ReqUser :=
  { employeeId := "AA12349", name := "Dispatcher Jennifer Wilson",
    role := "dispatcher", department := "dispatch", clearanceLevel := 4,
    airline := "American Airlines" }

/-- Witness for `soft_delete_documents_hard_delete_messages`: the uploader's
delete keeps the document record with status `deleted`; the listing routes
preserve statuses and delete preserves the record count on a concrete store;
the sender's message delete empties the store. -/
theorem soft_delete_documents_hard_delete_messages_witness :
    deleteDocumentRoute [c8Doc] c8Uploader 3000 c8Doc.id =
      (Except.ok (),
       [{ c8Doc with
            status := "deleted", updatedAt := 3000,
            accessLog := c8Doc.accessLog ++
              [{ action := "deleted", employeeId := c8Uploader.employeeId,
                 timestamp := 3000 }] }]) ∧
    ((getDocumentDetail [c8Doc] c8Uploader 3000 "doc-010").2.map Document.status =
        [c8Doc].map Document.status ∧
      (downloadDocument [c8Doc] c8Uploader 3000 "doc-010").2.map Document.status =
        [c8Doc].map Document.status ∧
      (deleteDocumentRoute [c8Doc] c8Uploader 3000 "doc-010").2.length =
        [c8Doc].length) ∧
    deleteMessageRoute [c8Message] c6Sender 2000 c8Message.id =
      (DeleteMsgResult.success, ([] : List Message)) :=
  ⟨soft_delete_documents_hard_delete_messages.1 c8Doc c8Uploader 3000
      (Or.inl (by decide)),
   soft_delete_documents_hard_delete_messages.2.1 [c8Doc] c8Uploader 3000 "doc-010",
   soft_delete_documents_hard_delete_messages.2.2 c8Message c6Sender 2000
      (by decide) (by decide)⟩

/-! ## C9 -/

/-- Support: when the handler does persist a record (a plaintext send, or
any send in which the cipher call returns), the `newMessage` literal always
carries the original plaintext in `originalContent` and the computed key in
`encryptionKey` — the fields the response projection then strips. -/
theorem newMessageRecord_fields (sender : ReqUser) (recipientName : String)
    (now : Millis) (newId : String) (recipientId : String)
    (messageContent : StoredContent) (originalContent : Bytes)
    (isEncrypted : Bool) (encryptionKey : Option Nat)
    (priority category : String) (flightNumber : Option String) :
    (newMessageRecord sender recipientName now newId recipientId
        messageContent originalContent isEncrypted encryptionKey
        priority category flightNumber).originalContent = originalContent ∧
    (newMessageRecord sender recipientName now newId recipientId
        messageContent originalContent isEncrypted encryptionKey
        priority category flightNumber).encryptionKey = encryptionKey :=
  ⟨rfl, rfl⟩

/-- Support: a plaintext send (`isEncrypted = false`) to an existing active
recipient does append its record, and that record stores the content in the
clear in both `content` and `originalContent`. -/
theorem plaintext_send_persists (users : List User) (recipient : User)
    (msgs : List Message) (sender : ReqUser) (now : Millis) (newId : String)
    (key iv : Nat) (recipientId : String) (content : Bytes)
    (priority category : String) (flightNumber : Option String)
    (hfind : findUserByEmployeeId users recipientId = some recipient)
    (hact : recipient.isActive = true) :
    sendMessage users msgs sender now newId key iv recipientId content false
        priority category flightNumber =
      (SendResult.sent
        (newMessageRecord sender recipient.name now newId recipientId
          (StoredContent.plain content) content false none priority category
          flightNumber).toResponse,
       msgs ++ [newMessageRecord sender recipient.name now newId recipientId
          (StoredContent.plain content) content false none priority category
          flightNumber]) := by
  simp [sendMessage, hfind, hact]

/-- **C9** (code bug): in the program, a send with `isEncrypted = true`
never persists anything — `encryptMessage` throws before the record is
built, so the store is unchanged, no `sent` response is produced, and once
the recipient checks pass the handler fails with the message-encryption
error.  The claimed plaintext-at-rest record exists only when the cipher
call returns (see `newMessageRecord_fields` and `plaintext_send_persists`
for what the handler persists when it does persist). -/
theorem encrypted_send_persists_nothing :
    (∀ (users : List User) (msgs : List Message) (sender : ReqUser)
        (now : Millis) (newId : String) (key iv : Nat) (recipientId : String)
        (content : Bytes) (priority category : String)
        (flightNumber : Option String),
      (sendMessage users msgs sender now newId key iv recipientId content true
          priority category flightNumber).2 = msgs ∧
      ∀ r : MessageResponse,
        (sendMessage users msgs sender now newId key iv recipientId content
            true priority category flightNumber).1 ≠ SendResult.sent r) ∧
    (∀ (users : List User) (recipient : User) (msgs : List Message)
        (sender : ReqUser) (now : Millis) (newId : String) (key iv : Nat)
        (recipientId : String) (content : Bytes) (priority category : String)
        (flightNumber : Option String),
      findUserByEmployeeId users recipientId = some recipient →
      recipient.isActive = true →
      (sendMessage users msgs sender now newId key iv recipientId content true
          priority category flightNumber).1 =
        SendResult.encryptionError
          "Message encryption failed: crypto.createCipherGCM is not a function") := by
  constructor
  · intro users msgs sender now newId key iv recipientId content priority
      category flightNumber
    rcases hcase : findUserByEmployeeId users recipientId with _ | recipient
    · simp [sendMessage, hcase]
    · cases hact : recipient.isActive with
      | false => simp [sendMessage, hcase, hact]
      | true =>
        constructor
        · simp [sendMessage, hcase, hact, encryptMessageRuntime, cryptoCall,
            nodeCryptoMembers, Except.map]
        · intro r
          simp [sendMessage, hcase, hact, encryptMessageRuntime, cryptoCall,
            nodeCryptoMembers, Except.map]
  · intro users recipient msgs sender now newId key iv recipientId content
      priority category flightNumber hfind hact
    simp [sendMessage, hfind, hact, encryptMessageRuntime, cryptoCall,
      nodeCryptoMembers, Except.map]

/-- The recipient record for the C9 witness. -/
def c9Recipient : User :=
  { id := "user-002", employeeId := "AA12346",
    password := bcryptHash 12 1 "password123",
    name := "First Officer Mike Chen", role := "co-pilot",
    department := "flight-operations", clearanceLevel := 4,
    airline := "American Airlines", isActive := true, lastLoginAt := none,
    failedLoginAttempts := 0, accountLockedUntil := none, updatedAt := 0 }

/-- Witness for `encrypted_send_persists_nothing`: a concrete encrypted send
to an existing active recipient leaves the store empty, produces no sent
response, and reports the encryption error. -/
theorem encrypted_send_persists_nothing_witness :
    ((sendMessage [c9Recipient] [] c6Sender 5000 "msg-030" 77 13 "AA12346"
        [72, 105] true "normal" "general" none).2 = ([] : List Message) ∧
      ∀ r : MessageResponse,
        (sendMessage [c9Recipient] [] c6Sender 5000 "msg-030" 77 13 "AA12346"
            [72, 105] true "normal" "general" none).1 ≠ SendResult.sent r) ∧
    (sendMessage [c9Recipient] [] c6Sender 5000 "msg-030" 77 13 "AA12346"
        [72, 105] true "normal" "general" none).1 =
      SendResult.encryptionError
        "Message encryption failed: crypto.createCipherGCM is not a function" :=
  ⟨encrypted_send_persists_nothing.1 [c9Recipient] [] c6Sender 5000 "msg-030"
      77 13 "AA12346" [72, 105] "normal" "general" none,
   encrypted_send_persists_nothing.2 [c9Recipient] c9Recipient [] c6Sender
      5000 "msg-030" 77 13 "AA12346" [72, 105] "normal" "general" none
      (by decide) (by decide)⟩

end AviationCrew
